import Mathlib

/-!
Shallow embedding of the Kalshi-Trading signal-to-execution pipeline
(`src/execution/trade_executor.py`, `src/execution/paper_trader.py`,
`src/execution/position_manager.py`).

Python floats are modelled as rationals (`ℚ`), Python `int(...)` on a
nonnegative float as truncation toward zero, Python `None`-able floats as
`Option ℚ` with Python truthiness (both `None` and `0.0` are falsy).
Wall-clock-dependent checks (rate limiting, cooldown, hours-until-close)
and broker-side effects are passed in as explicit environment inputs.
-/

namespace KalshiTrading

/-- Python `int(x)` on a float: truncation toward zero. -/
def pyInt (q : ℚ) : ℤ := if 0 ≤ q then ⌊q⌋ else ⌈q⌉

/-- Python truthiness of an optional float: `None` and `0.0` are falsy. -/
def pyTruthy (o : Option ℚ) : Bool :=
  match o with
  | none => false
  | some p => p != 0

/-- Python `a or b` on optional floats: `b` when `a` is falsy. -/
def pyOr (a b : Option ℚ) : Option ℚ :=
  if pyTruthy a then a else b

/-- `TradeSignal` dataclass (`speed_arbitrage.py`); fields not read by the
execution pipeline (timestamp, source, signal_type, fair_value, event_data)
are omitted. -/
structure TradeSignal where
  signal_id : String
  ticker : String
  side : String
  confidence : ℚ
  edge_percentage : ℚ
  current_price : Option ℚ
  reasoning : String
  deriving DecidableEq, Repr

/-- The configuration keys read by the execution pipeline, with the
defaults the code supplies at each `config.get(...)` site. -/
structure Config where
  max_position_size_usd : ℚ := 500
  max_portfolio_heat : ℚ := 20/100
  kelly_fraction : ℚ := 25/100
  min_edge_threshold : ℚ := 5/100
  max_daily_loss : ℚ := 1000
  circuit_breaker_consecutive_losses : ℕ := 3
  profit_target_multiplier : ℚ := 2
  stop_loss_percentage : ℚ := 30/100
  position_timeout_hours : ℚ := 24
  deriving DecidableEq, Repr

/-- `PositionSizer.kelly_position_size`: fractional Kelly dollar size. -/
def kelly_position_size (edge confidence kelly_fraction bankroll : ℚ) : ℚ :=
  let win_prob := confidence
  let loss_prob := 1 - win_prob
  if edge ≤ 0 ∨ 1 ≤ edge then 0
  else
    let b := edge / (1 - edge)
    let kelly_pct := (b * win_prob - loss_prob) / b
    let kelly_pct' := kelly_pct * kelly_fraction
    let kelly_pct'' := max 0 (min kelly_pct' (25/100))
    bankroll * kelly_pct''

/-- `price_cents = int(signal.current_price * 100) if signal.current_price
else 50` in `PositionSizer.calculate_position_size`. -/
def price_cents (current_price : Option ℚ) : ℤ :=
  match current_price with
  | none => 50
  | some p => if p != 0 then pyInt (p * 100) else 50

/-- `remaining_capacity = current_balance * max_heat - current_exposure`
in `PositionSizer.calculate_position_size`. -/
def remaining_capacity (config : Config) (current_balance current_exposure : ℚ) : ℚ :=
  current_balance * config.max_portfolio_heat - current_exposure

/-- The dollar size `PositionSizer.calculate_position_size` computes on its
positive-capacity path: `min(min(kelly_size, max_position),
remaining_capacity)` (the code applies the two `min`s in sequence). -/
def position_size_usd (signal : TradeSignal) (config : Config)
    (current_balance current_exposure : ℚ) : ℚ :=
  min
    (min
      (kelly_position_size signal.edge_percentage signal.confidence
        config.kelly_fraction current_balance)
      config.max_position_size_usd)
    (remaining_capacity config current_balance current_exposure)

/-- `PositionSizer.calculate_position_size`: number of contracts.  Returns 0
when the portfolio-heat capacity is exhausted; otherwise converts the dollar
size to contracts and clamps to a minimum of 1 (`max(1, num_contracts)`). -/
def calculate_position_size (signal : TradeSignal) (config : Config)
    (current_balance current_exposure : ℚ) : ℤ :=
  if remaining_capacity config current_balance current_exposure ≤ 0 then 0
  else
    max 1 (pyInt (position_size_usd signal config current_balance current_exposure
      * 100 / ((price_cents signal.current_price : ℤ) : ℚ)))

/-- Rejection reasons of `OrderValidator.validate_signal`; each constructor
carries the values the code interpolates into its f-string. -/
inductive RejectReason where
  | duplicate
  | lowConfidence (c : ℚ)
  | lowEdge (e : ℚ)
  | invalidPrice (p : ℚ)
  | invalidSide (s : String)
  deriving DecidableEq, Repr

/-- `OrderValidator.validate_signal`.  The MD5 digest used for
deduplication is passed in as an abstract hash function.  Note both the
confidence and the edge threshold read the same `min_edge_threshold`
config key, as in the source. -/
def validate_signal (md5 : String → String) (signal : TradeSignal)
    (config : Config) (seen_signals : List String) :
    Bool × Option RejectReason :=
  if md5 signal.signal_id ∈ seen_signals then
    (false, some .duplicate)
  else if signal.confidence < config.min_edge_threshold then
    (false, some (.lowConfidence signal.confidence))
  else if signal.edge_percentage < config.min_edge_threshold then
    (false, some (.lowEdge signal.edge_percentage))
  else if pyTruthy signal.current_price = true ∧
      (signal.current_price.getD 0 < 1/100 ∨ 99/100 < signal.current_price.getD 0) then
    (false, some (.invalidPrice (signal.current_price.getD 0)))
  else if ¬ (signal.side = "yes" ∨ signal.side = "no") then
    (false, some (.invalidSide signal.side))
  else
    (true, none)

/-- Rejection reasons of `OrderValidator.validate_order`. -/
inductive OrderReject where
  | missingTicker
  | invalidSide (s : String)
  | invalidQuantity (q : ℤ)
  | invalidPrice (p : ℤ)
  deriving DecidableEq, Repr

/-- `OrderValidator.validate_order`. -/
def validate_order (ticker side : String) (quantity : ℤ) (price : ℤ) :
    Bool × Option OrderReject :=
  if ticker = "" then (false, some .missingTicker)
  else if ¬ (side = "yes" ∨ side = "no") then (false, some (.invalidSide side))
  else if quantity ≤ 0 then (false, some (.invalidQuantity quantity))
  else if ¬ (1 ≤ price ∧ price ≤ 99) then (false, some (.invalidPrice price))
  else (true, none)

/-- `CircuitBreaker` state (`trip_time`, a wall-clock timestamp, is
abstracted away; it is only logged). -/
structure CircuitBreaker where
  max_consecutive_losses : ℕ
  consecutive_losses : ℕ
  is_tripped : Bool
  deriving DecidableEq, Repr

/-- `CircuitBreaker.__init__`. -/
def CircuitBreaker.init (config : Config) : CircuitBreaker :=
  { max_consecutive_losses := config.circuit_breaker_consecutive_losses
    consecutive_losses := 0
    is_tripped := false }

/-- `CircuitBreaker.trip`. -/
def CircuitBreaker.trip (cb : CircuitBreaker) : CircuitBreaker :=
  if cb.is_tripped = false then { cb with is_tripped := true } else cb

/-- `CircuitBreaker.reset`. -/
def CircuitBreaker.reset (cb : CircuitBreaker) : CircuitBreaker :=
  { cb with is_tripped := false, consecutive_losses := 0 }

/-- `CircuitBreaker.record_trade`: a negative P&L increments the
consecutive-loss counter and trips at the threshold; any other P&L takes the
reset branch. -/
def CircuitBreaker.record_trade (cb : CircuitBreaker) (pnl : ℚ) : CircuitBreaker :=
  if pnl < 0 then
    let cb' := { cb with consecutive_losses := cb.consecutive_losses + 1 }
    if cb'.max_consecutive_losses ≤ cb'.consecutive_losses then cb'.trip else cb'
  else
    let cb' := { cb with consecutive_losses := 0 }
    if cb'.is_tripped = true then cb'.reset else cb'

/-- `CircuitBreaker.can_trade`. -/
def CircuitBreaker.can_trade (cb : CircuitBreaker) : Bool × Option String :=
  if cb.is_tripped = true then
    (false, some "Circuit breaker tripped - trading paused")
  else (true, none)

/-- Outcome of `PaperTrader.place_order` for one simulated order: the final
order status, the filled count, and the fill price recorded in the trade
record (`None` when nothing filled). -/
structure PaperFill where
  status : String
  filled_count : ℤ
  fill_price : Option ℤ
  deriving DecidableEq, Repr

/-- `PaperTrader.place_order`, fill simulation only (order id generation,
logging and the position ledger aside): `fill_quantity = int(quantity *
0.95)`; on a positive fill, 1 cent of slippage is added when the limit
price is below 90 cents; otherwise the order is canceled. -/
def paper_place_order (quantity : ℤ) (limit_price : ℤ) : PaperFill :=
  let fill_quantity := pyInt ((quantity : ℚ) * (95/100))
  if 0 < fill_quantity then
    let slippage_cents : ℤ := if limit_price < 90 then 1 else 0
    { status := if fill_quantity = quantity then "filled" else "partial"
      filled_count := fill_quantity
      fill_price := some (limit_price + slippage_cents) }
  else
    { status := "canceled", filled_count := 0, fill_price := none }

/-- The market fields `PositionManager._check_position` reads.  The
`close_time` string and the wall clock are abstracted into the
`hours_until_close` input of `check_position` (`none` when `close_time` is
absent or fails to parse). -/
structure Market where
  status : String
  last_price : Option ℚ
  yes_bid : Option ℚ
  deriving DecidableEq, Repr

/-- The trade fields `PositionManager._check_position` reads. -/
structure TradeRec where
  side : String
  entry_price : ℚ
  quantity : ℤ
  deriving DecidableEq, Repr

/-- `ExitCondition` constants of `position_manager.py`. -/
inductive ExitReason where
  | profit_target
  | stop_loss
  | time_decay
  | manual
  | market_closed
  deriving DecidableEq, Repr

/-- `PositionManager._check_position`: the close decision for one open
trade.  Returns `some (price, reason)` when the position is to be closed at
`price` (which is `none` for a market-closed exit with no last price), and
`none` when no exit condition fires.  The exit parameters come from the
config (`profit_target_multiplier`, `stop_loss_percentage`,
`position_timeout_hours`). -/
def check_position (trade : TradeRec) (market : Option Market)
    (config : Config) (hours_until_close : Option ℚ) :
    Option (Option ℚ × ExitReason) :=
  match market with
  | none => none
  | some m =>
    if m.status = "closed" ∨ m.status = "settled" then
      some (m.last_price, .market_closed)
    else
      let current_price := pyOr m.last_price m.yes_bid
      if pyTruthy current_price = false then none
      else
        let cp := current_price.getD 0
        let entry := trade.entry_price
        let pnl_per_contract := if trade.side = "yes" then cp - entry else entry - cp
        let pnl_pct := if 0 < entry then pnl_per_contract / entry else 0
        let profit_target :=
          if trade.side = "yes" then
            entry * (1 + config.profit_target_multiplier * (5/100))
          else
            entry * (1 - config.profit_target_multiplier * (5/100))
        if trade.side = "yes" ∧ profit_target ≤ cp then
          some (some cp, .profit_target)
        else if trade.side = "no" ∧ cp ≤ profit_target then
          some (some cp, .profit_target)
        else if pnl_pct < -config.stop_loss_percentage then
          some (some cp, .stop_loss)
        else
          match hours_until_close with
          | some h =>
            if h < config.position_timeout_hours then some (some cp, .time_decay)
            else none
          | none => none

/-- The process-local executor state `TradeExecutor.execute_signal` reads
and writes: the kill switch, the circuit breaker, the dedup set of hashed
signal ids, accumulated daily P&L, and the count of recent trades (their
timestamps abstracted). -/
structure ExecState where
  trading_enabled : Bool
  circuit_breaker : CircuitBreaker
  seen_signals : List String
  daily_pnl : ℚ
  recent_trades : ℕ
  deriving DecidableEq, Repr

/-- The wall-clock- and broker-dependent inputs of one
`TradeExecutor.execute_signal` call: the result of `_check_rate_limits`,
whether the post-loss cooldown is still running, the fetched balance and
exposure, and whether order placement returned an order. -/
structure ExecEnv where
  rate_ok : Bool
  in_cooldown : Bool
  balance : ℚ
  exposure : ℚ
  order_placed : Bool
  deriving DecidableEq, Repr

/-- The alerts `execute_signal` sends through `_send_alert`. -/
inductive Alert where
  | breakerRejectAlert
  | dailyLossAlert
  | tradeExecutedAlert
  deriving DecidableEq, Repr

/-- Result of one `execute_signal` call: which check rejected the signal,
or `executed quantity limit_price` when a Trade was recorded. -/
inductive ExecResult where
  | disabled
  | breakerBlocked
  | invalidSignal (r : Option RejectReason)
  | rateLimited
  | dailyLossBlocked
  | cooldownBlocked
  | zeroQuantity
  | invalidOrder
  | placementFailed
  | executed (quantity : ℤ) (limit_price : ℤ)
  deriving DecidableEq, Repr

/-- An order request sent to the broker / paper simulator. -/
structure OrderRequest where
  ticker : String
  side : String
  quantity : ℤ
  limit_price : ℤ
  deriving DecidableEq, Repr

/-- Full outcome of one `execute_signal` call: the result, the new executor
state, the order-placement attempts made, and the alerts sent. -/
structure ExecReturn where
  result : ExecResult
  state : ExecState
  orders : List OrderRequest
  alerts : List Alert
  deriving DecidableEq, Repr

/-- `TradeExecutor.execute_signal`: the per-call pipeline, short-circuiting
at the first failing check, in source order: trading-enabled flag, circuit
breaker (alerts on rejection), signal validation, rate limits, daily-loss
limit (alerts on rejection), cooldown, position sizing (0 contracts
rejects), order validation, order placement.  On success the signal hash is
added to the dedup set, the rate window grows, and a trade alert is sent.
Database persistence and the success-alert text are abstracted away. -/
def execute_signal (md5 : String → String) (config : Config)
    (st : ExecState) (signal : TradeSignal) (env : ExecEnv) : ExecReturn :=
  if st.trading_enabled = false then
    { result := .disabled, state := st, orders := [], alerts := [] }
  else if st.circuit_breaker.can_trade.1 = false then
    { result := .breakerBlocked, state := st, orders := []
      alerts := [.breakerRejectAlert] }
  else if (validate_signal md5 signal config st.seen_signals).1 = false then
    { result := .invalidSignal (validate_signal md5 signal config st.seen_signals).2
      state := st, orders := [], alerts := [] }
  else if env.rate_ok = false then
    { result := .rateLimited, state := st, orders := [], alerts := [] }
  else if st.daily_pnl < -config.max_daily_loss then
    { result := .dailyLossBlocked, state := st, orders := []
      alerts := [.dailyLossAlert] }
  else if env.in_cooldown = true then
    { result := .cooldownBlocked, state := st, orders := [], alerts := [] }
  else if calculate_position_size signal config env.balance env.exposure = 0 then
    { result := .zeroQuantity, state := st, orders := [], alerts := [] }
  else if (validate_order signal.ticker signal.side
      (calculate_position_size signal config env.balance env.exposure)
      (price_cents signal.current_price)).1 = false then
    { result := .invalidOrder, state := st, orders := [], alerts := [] }
  else if env.order_placed = false then
    { result := .placementFailed, state := st
      orders := [{ ticker := signal.ticker, side := signal.side
                   quantity := calculate_position_size signal config env.balance env.exposure
                   limit_price := price_cents signal.current_price }]
      alerts := [] }
  else
    { result := .executed (calculate_position_size signal config env.balance env.exposure)
        (price_cents signal.current_price)
      state := { st with
        seen_signals := md5 signal.signal_id :: st.seen_signals
        recent_trades := st.recent_trades + 1 }
      orders := [{ ticker := signal.ticker, side := signal.side
                   quantity := calculate_position_size signal config env.balance env.exposure
                   limit_price := price_cents signal.current_price }]
      alerts := [.tradeExecutedAlert] }

/-! Concrete example values used by counterexamples and witnesses. -/

/-- A signal with a degenerate edge of 0 and a 50-cent price. -/
def exSignalEdge0 : TradeSignal :=
  { signal_id := "s1", ticker := "T", side := "yes", confidence := 8/10
    edge_percentage := 0, current_price := some (1/2), reasoning := "" }

/-- A well-formed signal above the default thresholds. -/
def exSignalA : TradeSignal :=
  { signal_id := "s1", ticker := "T", side := "yes", confidence := 8/10
    edge_percentage := 6/100, current_price := some (1/2), reasoning := "" }

/-- A degenerate-edge signal that carries no current price. -/
def exSignalEdge0NoPrice : TradeSignal :=
  { signal_id := "s2", ticker := "T", side := "yes", confidence := 8/10
    edge_percentage := 0, current_price := none, reasoning := "" }

/-- A fresh executor state with trading enabled and default config. -/
def exState : ExecState :=
  { trading_enabled := true
    circuit_breaker := CircuitBreaker.init {}
    seen_signals := []
    daily_pnl := 0
    recent_trades := 0 }

/-- The executor state of spec Scenario D: daily P&L −1001 against the
default max daily loss of 1000. -/
def exStateBreach : ExecState :=
  { trading_enabled := true
    circuit_breaker := CircuitBreaker.init {}
    seen_signals := []
    daily_pnl := -1001
    recent_trades := 0 }

/-- A benign environment: within rate limits, no cooldown, $10000 balance,
no exposure, broker accepts the order. -/
def exEnv : ExecEnv :=
  { rate_ok := true, in_cooldown := false, balance := 10000
    exposure := 0, order_placed := true }

/-! ## Helper lemmas -/

theorem pyInt_of_nonneg {q : ℚ} (h : 0 ≤ q) : pyInt q = ⌊q⌋ := if_pos h

/-- Folding `record_trade` over a run of losses that stays strictly below
the threshold counts them up without tripping; the final `is_tripped` flag
is exactly whether the threshold has been reached. -/
theorem foldl_record_losses (l : List ℚ) : ∀ m c : ℕ, (∀ x ∈ l, x < 0) →
    c + l.length ≤ m → c < m →
    l.foldl CircuitBreaker.record_trade ⟨m, c, false⟩ =
      ⟨m, c + l.length, decide (m ≤ c + l.length)⟩ := by
  induction l with
  | nil =>
    intro m c _ _ hc
    simp only [List.foldl_nil, List.length_nil, Nat.add_zero]
    rw [decide_eq_false (Nat.not_le.mpr hc)]
  | cons x xs ih =>
    intro m c hneg hlen hc
    simp only [List.length_cons] at hlen ⊢
    have hx : x < 0 := hneg x (List.mem_cons_self x xs)
    have hstep : CircuitBreaker.record_trade ⟨m, c, false⟩ x =
        (if m ≤ c + 1 then (⟨m, c + 1, true⟩ : CircuitBreaker) else ⟨m, c + 1, false⟩) := by
      unfold CircuitBreaker.record_trade CircuitBreaker.trip
      rw [if_pos hx]
      dsimp only
      split_ifs <;> simp_all
    by_cases hm : m ≤ c + 1
    · have hxs : xs.length = 0 := by omega
      have hxsnil : xs = [] := List.length_eq_zero.mp hxs
      subst hxsnil
      simp only [List.foldl_cons, List.foldl_nil, hstep, if_pos hm, List.length_nil]
      rw [decide_eq_true (by omega : m ≤ c + (0 + 1))]
    · simp only [List.foldl_cons, hstep, if_neg hm]
      rw [ih m (c + 1) (fun y hy => hneg y (List.mem_cons_of_mem x hy))
        (by omega) (by omega)]
      congr 1
      · omega
      · exact decide_eq_decide.mpr (by omega)

/-- Inversion for a successful `execute_signal` call: the kill switch was
on, the circuit breaker allowed trading, and the new state adds the hashed
signal id to the dedup set and grows the rate window by one. -/
theorem execute_executed_inv (md5 : String → String) (config : Config)
    (st : ExecState) (signal : TradeSignal) (env : ExecEnv) (q lp : ℤ)
    (h : (execute_signal md5 config st signal env).result = .executed q lp) :
    st.trading_enabled = true ∧ st.circuit_breaker.can_trade.1 = true ∧
    (execute_signal md5 config st signal env).state =
      { st with seen_signals := md5 signal.signal_id :: st.seen_signals
                recent_trades := st.recent_trades + 1 } := by
  unfold execute_signal at h
  split_ifs at h with h1 h2 h3 h4 h5 h6 h7 h8 h9
  all_goals simp only [ExecResult.executed.injEq] at h
  have he : st.trading_enabled = true := by
    cases hb : st.trading_enabled
    · exact absurd hb h1
    · rfl
  have hbrk : st.circuit_breaker.can_trade.1 = true := by
    cases hb : st.circuit_breaker.can_trade.1
    · exact absurd hb h2
    · rfl
  refine ⟨he, hbrk, ?_⟩
  unfold execute_signal
  rw [if_neg h1, if_neg h2, if_neg h3, if_neg h4, if_neg h5, if_neg h6, if_neg h7,
    if_neg h8, if_neg h9]

/-! ## Claim C1 -/

/-- C1, counterexample: at a signal with edge 0 (degenerate), default
config, balance 10000 and no exposure, the computed dollar size is 0 yet
`calculate_position_size` returns 1 contract, not 0 — the minimum-1-contract
clamp overrides the zero dollar size, contradicting the claim. -/
theorem C1_counterexample :
    position_size_usd exSignalEdge0 {} 10000 0 = 0 ∧
    calculate_position_size exSignalEdge0 {} 10000 0 = 1 := by
  constructor
  · norm_num [position_size_usd, kelly_position_size, remaining_capacity, exSignalEdge0,
      min_def]
  · norm_num [calculate_position_size, position_size_usd, kelly_position_size,
      remaining_capacity, exSignalEdge0, min_def, price_cents, pyInt]

/-- C1, amended: when the remaining heat capacity is ≤ 0 the sizer returns
0 contracts; whenever the capacity is positive it returns at least 1
contract, and for a degenerate edge (≤ 0 or ≥ 1) with a nonnegative
per-trade cap it returns exactly 1 contract (never 0): the `max(1, ·)`
clamp turns a zero dollar size into 1 contract. -/
theorem C1_theorem (signal : TradeSignal) (config : Config)
    (balance exposure : ℚ) :
    (remaining_capacity config balance exposure ≤ 0 →
      calculate_position_size signal config balance exposure = 0) ∧
    (0 < remaining_capacity config balance exposure →
      1 ≤ calculate_position_size signal config balance exposure) ∧
    (0 < remaining_capacity config balance exposure →
      0 ≤ config.max_position_size_usd →
      (signal.edge_percentage ≤ 0 ∨ 1 ≤ signal.edge_percentage) →
      calculate_position_size signal config balance exposure = 1) := by
  refine ⟨?_, ?_, ?_⟩
  · intro h
    unfold calculate_position_size
    rw [if_pos h]
  · intro h
    unfold calculate_position_size
    rw [if_neg (not_le.mpr h)]
    exact le_max_left _ _
  · intro h hmp hedge
    unfold calculate_position_size
    rw [if_neg (not_le.mpr h)]
    have hk : kelly_position_size signal.edge_percentage signal.confidence
        config.kelly_fraction balance = 0 := by
      unfold kelly_position_size
      rw [if_pos hedge]
    have husd : position_size_usd signal config balance exposure = 0 := by
      unfold position_size_usd
      rw [hk, min_eq_left hmp]
      exact min_eq_left h.le
    rw [husd]
    norm_num [pyInt]

/-- C1, witness: at the edge-0 signal with positive remaining capacity the
amended theorem yields exactly 1 contract. -/
theorem C1_witness :
    0 < remaining_capacity {} (10000 : ℚ) 0 ∧
    calculate_position_size exSignalEdge0 {} 10000 0 = 1 :=
  ⟨by norm_num [remaining_capacity],
    (C1_theorem exSignalEdge0 {} 10000 0).2.2 (by norm_num [remaining_capacity])
      (by norm_num) (Or.inl (by norm_num [exSignalEdge0]))⟩

/-! ## Claim C4 -/

/-- C4, counterexample: recording a realized P&L of exactly 0 on a breaker
with 2 consecutive losses resets the counter to 0 instead of leaving it
unchanged. -/
theorem C4_counterexample :
    (CircuitBreaker.record_trade ⟨3, 2, false⟩ 0).consecutive_losses = 0 ∧
    ¬ (CircuitBreaker.record_trade ⟨3, 2, false⟩ 0).consecutive_losses = 2 := by
  decide

/-- C4, amended: recording a P&L of exactly 0 takes the non-loss branch of
`record_trade`: it resets the consecutive-loss counter to 0 and clears a
tripped breaker, exactly as a winning trade does, for every prior state. -/
theorem C4_theorem (cb : CircuitBreaker) :
    (cb.record_trade 0).consecutive_losses = 0 ∧
    (cb.record_trade 0).is_tripped = false ∧
    (cb.record_trade 0).max_consecutive_losses = cb.max_consecutive_losses := by
  unfold CircuitBreaker.record_trade CircuitBreaker.reset
  rw [if_neg (lt_irrefl (0 : ℚ))]
  dsimp only
  split_ifs <;> simp_all

/-! ## Claim C5 -/

/-- C5: the dollar size on the positive-capacity path equals
`min(kelly_usd, max_position_size_usd, remaining_heat)`, never exceeds the
per-trade cap or the remaining heat capacity, the sizer returns 0 contracts
when the capacity is exhausted, and the contract count is derived from
exactly this dollar size otherwise. -/
theorem C5_theorem (signal : TradeSignal) (config : Config)
    (balance exposure : ℚ) :
    position_size_usd signal config balance exposure =
      min (kelly_position_size signal.edge_percentage signal.confidence
            config.kelly_fraction balance)
        (min config.max_position_size_usd
          (remaining_capacity config balance exposure)) ∧
    position_size_usd signal config balance exposure ≤
      config.max_position_size_usd ∧
    position_size_usd signal config balance exposure ≤
      remaining_capacity config balance exposure ∧
    (remaining_capacity config balance exposure ≤ 0 →
      calculate_position_size signal config balance exposure = 0) ∧
    (0 < remaining_capacity config balance exposure →
      calculate_position_size signal config balance exposure =
        max 1 (pyInt (position_size_usd signal config balance exposure * 100 /
          ((price_cents signal.current_price : ℤ) : ℚ)))) := by
  refine ⟨min_assoc _ _ _, ?_, min_le_right _ _, ?_, ?_⟩
  · exact le_trans (min_le_left _ _) (min_le_right _ _)
  · intro h
    unfold calculate_position_size
    rw [if_pos h]
  · intro h
    unfold calculate_position_size
    rw [if_neg (not_le.mpr h)]

/-- C5, witness: at a concrete signal with positive remaining capacity the
contract count is computed from the dollar size. -/
theorem C5_witness :
    0 < remaining_capacity {} (10000 : ℚ) 0 ∧
    calculate_position_size exSignalA {} 10000 0 =
      max 1 (pyInt (position_size_usd exSignalA {} 10000 0 * 100 /
        ((price_cents exSignalA.current_price : ℤ) : ℚ))) :=
  ⟨by norm_num [remaining_capacity],
    (C5_theorem exSignalA {} 10000 0).2.2.2.2 (by norm_num [remaining_capacity])⟩

/-! ## Claim C9 -/

/-- C9, counterexample: a paper order of quantity 1 at 50 cents does not
fill 95% of the requested quantity (it fills 0, `int(0.95) = 0`) and
records no fill price (the claim asserts a fill price of 51). -/
theorem C9_counterexample :
    ¬ ((((paper_place_order 1 50).filled_count : ℚ) = 95/100 * 1) ∧
      (paper_place_order 1 50).fill_price = some 51) := by
  intro h
  exact absurd h.1 (by norm_num [paper_place_order, pyInt])

/-- C9, amended: the paper fill is deterministic with filled quantity
`⌊0.95·q⌋`; when that is positive the fill price is the limit price plus 1
cent for limit prices below 90 cents and the limit price otherwise; when it
is zero (q = 1) the order is canceled with no fill price. -/
theorem C9_theorem (q p : ℤ) (hq : 1 ≤ q) :
    (paper_place_order q p).filled_count = ⌊(95/100 : ℚ) * (q : ℚ)⌋ ∧
    (0 < (paper_place_order q p).filled_count →
      (paper_place_order q p).fill_price = some (if p < 90 then p + 1 else p)) ∧
    ((paper_place_order q p).filled_count = 0 →
      (paper_place_order q p).fill_price = none ∧
      (paper_place_order q p).status = "canceled") := by
  have hq0 : (0 : ℚ) ≤ (q : ℚ) := by exact_mod_cast le_trans zero_le_one hq
  have hnn : (0 : ℚ) ≤ (q : ℚ) * (95/100) := by
    apply mul_nonneg hq0
    norm_num
  have hfl : pyInt ((q : ℚ) * (95/100)) = ⌊(95/100 : ℚ) * (q : ℚ)⌋ := by
    rw [pyInt_of_nonneg hnn, mul_comm]
  unfold paper_place_order
  dsimp only
  by_cases hF : 0 < pyInt ((q : ℚ) * (95/100))
  · rw [if_pos hF]
    dsimp only
    refine ⟨hfl, fun _ => ?_, fun h0 => absurd (h0 ▸ hF) (lt_irrefl 0)⟩
    split_ifs <;> norm_num
  · rw [if_neg hF]
    dsimp only
    have hz : pyInt ((q : ℚ) * (95/100)) = 0 :=
      le_antisymm (not_lt.mp hF)
        (by rw [pyInt_of_nonneg hnn]; exact Int.floor_nonneg.mpr hnn)
    exact ⟨by rw [← hfl, hz], fun h => absurd h (lt_irrefl 0).elim, fun _ => ⟨rfl, rfl⟩⟩

/-- C9, witness: quantity 20 at 50 cents fills 19 contracts at 51 cents. -/
theorem C9_witness :
    (paper_place_order 20 50).filled_count = ⌊(95/100 : ℚ) * (20 : ℚ)⌋ ∧
    (paper_place_order 20 50).fill_price = some 51 := by
  have h := C9_theorem 20 50 (by norm_num)
  exact ⟨h.1, (h.2.1 (by norm_num [paper_place_order, pyInt])).trans (by norm_num)⟩

/-! ## Claim C10 -/

/-- C10, counterexample: with no current price and a degenerate edge, the
dollar size is 0 and the sizer returns 1 contract, not
`floor(size_usd·100/50) = 0` — the substituted 50-cent price feeds a
computation that is then clamped to a minimum of 1. -/
theorem C10_counterexample :
    position_size_usd exSignalEdge0NoPrice {} 10000 0 = 0 ∧
    calculate_position_size exSignalEdge0NoPrice {} 10000 0 = 1 ∧
    ¬ (calculate_position_size exSignalEdge0NoPrice {} 10000 0 =
        pyInt (position_size_usd exSignalEdge0NoPrice {} 10000 0 * 100 / 50)) := by
  refine ⟨?_, ?_, ?_⟩ <;>
    norm_num [calculate_position_size, position_size_usd, kelly_position_size,
      remaining_capacity, exSignalEdge0NoPrice, min_def, price_cents, pyInt]

/-- C10, amended: when a signal carries no current price (`None` or `0`),
a 50-cent price is silently substituted at both points: the sizer computes
contracts as `max(1, floor(size_usd·100/50))` on the positive-capacity path
(0 when the heat capacity is exhausted), and a successfully executed order
is placed with a limit price of 50 cents. -/
theorem C10_theorem (signal : TradeSignal) (config : Config)
    (balance exposure : ℚ) (md5 : String → String) (st : ExecState)
    (env : ExecEnv) (q lp : ℤ)
    (hp : signal.current_price = none ∨ signal.current_price = some 0) :
    price_cents signal.current_price = 50 ∧
    (0 < remaining_capacity config balance exposure →
      calculate_position_size signal config balance exposure =
        max 1 (pyInt (position_size_usd signal config balance exposure * 100 / 50))) ∧
    ((execute_signal md5 config st signal env).result = .executed q lp →
      lp = 50) := by
  have hpc : price_cents signal.current_price = 50 := by
    rcases hp with h | h <;> rw [h] <;> simp [price_cents]
  refine ⟨hpc, ?_, ?_⟩
  · intro h
    unfold calculate_position_size
    rw [if_neg (not_le.mpr h), hpc]
    norm_num
  · intro h
    unfold execute_signal at h
    split_ifs at h
    all_goals simp only [ExecResult.executed.injEq] at h
    rw [← h.2]
    exact hpc

/-- C10, witness: the no-price degenerate-edge signal gets the 50-cent
substitution and the clamped contract count. -/
theorem C10_witness :
    price_cents exSignalEdge0NoPrice.current_price = 50 ∧
    calculate_position_size exSignalEdge0NoPrice {} 10000 0 =
      max 1 (pyInt (position_size_usd exSignalEdge0NoPrice {} 10000 0 * 100 / 50)) := by
  have h := C10_theorem exSignalEdge0NoPrice {} 10000 0 (fun s => s) exState exEnv
    1 50 (Or.inl rfl)
  exact ⟨h.1, h.2.1 (by norm_num [remaining_capacity])⟩

/-! ## Claim C2 -/

/-- C2: from the initial Closed state, after exactly
`circuit_breaker_consecutive_losses` consecutive records with negative P&L
(the threshold being at least 1) the breaker is Tripped and `can_trade`
returns false with the circuit-breaker reason; one subsequent record with
winning P&L returns it to Closed with a zero counter and `can_trade`
true. -/
theorem C2_theorem (config : Config) (l : List ℚ) (w : ℚ)
    (hm : 1 ≤ config.circuit_breaker_consecutive_losses)
    (hlen : l.length = config.circuit_breaker_consecutive_losses)
    (hneg : ∀ x ∈ l, x < 0) (hw : 0 < w) :
    (l.foldl CircuitBreaker.record_trade (CircuitBreaker.init config)).is_tripped = true ∧
    (l.foldl CircuitBreaker.record_trade (CircuitBreaker.init config)).can_trade =
      (false, some "Circuit breaker tripped - trading paused") ∧
    ((l.foldl CircuitBreaker.record_trade (CircuitBreaker.init config)).record_trade w).is_tripped = false ∧
    ((l.foldl CircuitBreaker.record_trade (CircuitBreaker.init config)).record_trade w).consecutive_losses = 0 ∧
    ((l.foldl CircuitBreaker.record_trade (CircuitBreaker.init config)).record_trade w).can_trade =
      (true, none) := by
  set m := config.circuit_breaker_consecutive_losses with hmdef
  have hfold : l.foldl CircuitBreaker.record_trade (CircuitBreaker.init config) =
      ⟨m, m, true⟩ := by
    have hrec := foldl_record_losses l m 0 hneg (by omega) (by omega)
    have h0 : (0 : ℕ) + l.length = m := by omega
    rw [show CircuitBreaker.init config = (⟨m, 0, false⟩ : CircuitBreaker) from rfl,
      hrec, h0, decide_eq_true (le_refl m)]
  have hwin : (⟨m, m, true⟩ : CircuitBreaker).record_trade w =
      ⟨m, 0, false⟩ := by
    unfold CircuitBreaker.record_trade CircuitBreaker.reset
    rw [if_neg (not_lt.mpr hw.le)]
    rfl
  rw [hfold, hwin]
  exact ⟨rfl, rfl, rfl, rfl, rfl⟩

/-- C2, witness: with the default threshold of 3, three losing records trip
the breaker and block trading; one winning record restores it. -/
theorem C2_witness :
    (([-1, -1, -1] : List ℚ).foldl CircuitBreaker.record_trade
      (CircuitBreaker.init {})).can_trade =
      (false, some "Circuit breaker tripped - trading paused") ∧
    ((([-1, -1, -1] : List ℚ).foldl CircuitBreaker.record_trade
      (CircuitBreaker.init {})).record_trade 1).consecutive_losses = 0 ∧
    ((([-1, -1, -1] : List ℚ).foldl CircuitBreaker.record_trade
      (CircuitBreaker.init {})).record_trade 1).can_trade = (true, none) := by
  have h := C2_theorem {} [-1, -1, -1] 1 (by norm_num) (by norm_num)
    (by intro x hx
        simp only [List.mem_cons, List.not_mem_nil, or_false] at hx
        rcases hx with h | h | h <;> (subst h; norm_num))
    (by norm_num)
  exact ⟨h.2.1, h.2.2.2.1, h.2.2.2.2⟩

/-! ## Claim C3 -/

/-- C3, counterexample: in Scenario D's breach state (daily P&L −1001
against a max daily loss of 1000), each of two successive `execute` calls
for a valid signal emits its own daily-loss alert — two alerts for one
breach, not exactly one. -/
theorem C3_counterexample :
    (execute_signal (fun s => s) {} exStateBreach exSignalA exEnv).alerts =
      [Alert.dailyLossAlert] ∧
    (execute_signal (fun s => s) {}
      (execute_signal (fun s => s) {} exStateBreach exSignalA exEnv).state
      exSignalA exEnv).alerts = [Alert.dailyLossAlert] := by
  constructor <;>
    norm_num [execute_signal, exStateBreach, exSignalA, exEnv, validate_signal,
      pyTruthy, CircuitBreaker.init, CircuitBreaker.can_trade]

/-- C3, amended: whenever `daily_pnl < -max_daily_loss`, `execute` returns
no Trade and places no order; a daily-loss alert is emitted by every call
that reaches the daily-loss check (trading enabled, breaker closed, signal
valid, within rate limits), so repeated calls during one breach emit one
alert each rather than once per breach. -/
theorem C3_theorem (md5 : String → String) (config : Config) (st : ExecState)
    (signal : TradeSignal) (env : ExecEnv)
    (h : st.daily_pnl < -config.max_daily_loss) :
    (∀ q lp, (execute_signal md5 config st signal env).result ≠ .executed q lp) ∧
    (execute_signal md5 config st signal env).orders = [] ∧
    (st.trading_enabled = true → st.circuit_breaker.can_trade.1 = true →
      (validate_signal md5 signal config st.seen_signals).1 = true →
      env.rate_ok = true →
      (execute_signal md5 config st signal env).result = .dailyLossBlocked ∧
      (execute_signal md5 config st signal env).alerts = [Alert.dailyLossAlert]) := by
  unfold execute_signal
  split_ifs with h1 h2 h3 h4 <;> simp_all

/-- C3, witness: the Scenario D breach state rejects a valid signal with a
daily-loss alert. -/
theorem C3_witness :
    (execute_signal (fun s => s) {} exStateBreach exSignalA exEnv).result =
      ExecResult.dailyLossBlocked ∧
    (execute_signal (fun s => s) {} exStateBreach exSignalA exEnv).alerts =
      [Alert.dailyLossAlert] := by
  have h := C3_theorem (fun s => s) {} exStateBreach exSignalA exEnv
    (by norm_num [exStateBreach])
  exact h.2.2 rfl rfl
    (by norm_num [validate_signal, exSignalA, exStateBreach, pyTruthy]) rfl

/-! ## Claim C6 -/

/-- C6: `validate_signal` evaluates its five checks in the fixed order
duplicate, confidence, edge, price range (when the price is truthy), side;
the first failing check determines the rejection reason, a signal passing
all five is accepted, and acceptance coincides with the absence of a
reason.  (Both thresholds read the same `min_edge_threshold` config
key.) -/
theorem C6_theorem (md5 : String → String) (signal : TradeSignal)
    (config : Config) (seen : List String) :
    ((validate_signal md5 signal config seen).1 = true ↔
      (md5 signal.signal_id ∉ seen ∧
       config.min_edge_threshold ≤ signal.confidence ∧
       config.min_edge_threshold ≤ signal.edge_percentage ∧
       ¬ (pyTruthy signal.current_price = true ∧
          (signal.current_price.getD 0 < 1/100 ∨
           99/100 < signal.current_price.getD 0)) ∧
       (signal.side = "yes" ∨ signal.side = "no"))) ∧
    ((validate_signal md5 signal config seen).2 = some RejectReason.duplicate ↔
      md5 signal.signal_id ∈ seen) ∧
    ((validate_signal md5 signal config seen).2 =
        some (RejectReason.lowConfidence signal.confidence) ↔
      (md5 signal.signal_id ∉ seen ∧
       signal.confidence < config.min_edge_threshold)) ∧
    ((validate_signal md5 signal config seen).2 =
        some (RejectReason.lowEdge signal.edge_percentage) ↔
      (md5 signal.signal_id ∉ seen ∧
       config.min_edge_threshold ≤ signal.confidence ∧
       signal.edge_percentage < config.min_edge_threshold)) ∧
    ((validate_signal md5 signal config seen).2 =
        some (RejectReason.invalidPrice (signal.current_price.getD 0)) ↔
      (md5 signal.signal_id ∉ seen ∧
       config.min_edge_threshold ≤ signal.confidence ∧
       config.min_edge_threshold ≤ signal.edge_percentage ∧
       (pyTruthy signal.current_price = true ∧
        (signal.current_price.getD 0 < 1/100 ∨
         99/100 < signal.current_price.getD 0)))) ∧
    ((validate_signal md5 signal config seen).2 =
        some (RejectReason.invalidSide signal.side) ↔
      (md5 signal.signal_id ∉ seen ∧
       config.min_edge_threshold ≤ signal.confidence ∧
       config.min_edge_threshold ≤ signal.edge_percentage ∧
       ¬ (pyTruthy signal.current_price = true ∧
          (signal.current_price.getD 0 < 1/100 ∨
           99/100 < signal.current_price.getD 0)) ∧
       ¬ (signal.side = "yes" ∨ signal.side = "no"))) ∧
    ((validate_signal md5 signal config seen).1 = true ↔
      (validate_signal md5 signal config seen).2 = none) := by
  unfold validate_signal
  split_ifs with hd hc he hp hs <;> simp_all [← not_lt]

/-- C6, witness: a concrete in-range signal passes all five checks and is
accepted with no reason. -/
theorem C6_witness :
    (validate_signal (fun s => s) exSignalA {} []).1 = true ∧
    (validate_signal (fun s => s) exSignalA {} []).2 = none := by
  have h := C6_theorem (fun s => s) exSignalA {} []
  have hacc : (validate_signal (fun s => s) exSignalA {} []).1 = true :=
    h.1.mpr (by norm_num [exSignalA, pyTruthy])
  exact ⟨hacc, (h.2.2.2.2.2.2).mp hacc⟩

/-! ## Claim C7 -/

/-- C7: if an `execute` call for a signal places an order (result
`executed`), a second `execute` call for any signal with the same signal id
is rejected as a duplicate by validation, before any order placement — so
the two calls place at most one order. -/
theorem C7_theorem (md5 : String → String) (config : Config) (st : ExecState)
    (sig1 sig2 : TradeSignal) (env1 env2 : ExecEnv) (q lp : ℤ)
    (hid : sig1.signal_id = sig2.signal_id)
    (h : (execute_signal md5 config st sig1 env1).result = .executed q lp) :
    (execute_signal md5 config (execute_signal md5 config st sig1 env1).state
      sig2 env2).result = .invalidSignal (some RejectReason.duplicate) ∧
    (execute_signal md5 config (execute_signal md5 config st sig1 env1).state
      sig2 env2).orders = [] := by
  obtain ⟨hen, hbrk, hst⟩ := execute_executed_inv md5 config st sig1 env1 q lp h
  rw [hst]
  have hdup : md5 sig2.signal_id ∈ (md5 sig1.signal_id :: st.seen_signals) := by
    rw [← hid]
    exact List.mem_cons_self _ _
  have hval : validate_signal md5 sig2 config
      (md5 sig1.signal_id :: st.seen_signals) =
      (false, some RejectReason.duplicate) := by
    unfold validate_signal
    rw [if_pos hdup]
  unfold execute_signal
  simp [hen, hbrk, hval]

/-- C7, witness: a concrete signal executes (1 contract at 50 cents) and
its immediate resubmission is rejected as a duplicate. -/
theorem C7_witness :
    (execute_signal (fun s => s) {} exState exSignalA exEnv).result =
      ExecResult.executed 1 50 ∧
    (execute_signal (fun s => s) {}
      (execute_signal (fun s => s) {} exState exSignalA exEnv).state
      exSignalA exEnv).result =
      ExecResult.invalidSignal (some RejectReason.duplicate) := by
  have h1 : (execute_signal (fun s => s) {} exState exSignalA exEnv).result =
      ExecResult.executed 1 50 := by
    norm_num [execute_signal, exState, exSignalA, exEnv, validate_signal,
      validate_order, calculate_position_size, position_size_usd,
      kelly_position_size, remaining_capacity, min_def, max_def, price_cents,
      pyInt, pyTruthy, CircuitBreaker.init, CircuitBreaker.can_trade]
    rfl
  exact ⟨h1,
    (C7_theorem (fun s => s) {} exState exSignalA exSignalA exEnv exEnv 1 50
      rfl h1).1⟩

/-! ## Claim C8 -/

/-- C8: for an open trade whose market is not closed/settled and has a
truthy current price, once the price has reached or passed
`entry·(1 + multiplier·0.05)` for side yes (respectively
`entry·(1 − multiplier·0.05)` for side no), `check_position` closes the
trade at the current price with reason ProfitTarget. -/
theorem C8_theorem (trade : TradeRec) (m : Market) (config : Config)
    (hours_until_close : Option ℚ) (p : ℚ)
    (hstatus : ¬ (m.status = "closed" ∨ m.status = "settled"))
    (hp : pyOr m.last_price m.yes_bid = some p) (hp0 : p ≠ 0)
    (htarget :
      (trade.side = "yes" ∧
        trade.entry_price * (1 + config.profit_target_multiplier * (5/100)) ≤ p) ∨
      (trade.side = "no" ∧
        p ≤ trade.entry_price * (1 - config.profit_target_multiplier * (5/100)))) :
    check_position trade (some m) config hours_until_close =
      some (some p, ExitReason.profit_target) := by
  simp only [check_position]
  rw [if_neg hstatus, hp]
  have htr : pyTruthy (some p) = true := by
    simp [pyTruthy, bne_iff_ne, hp0]
  simp only [htr, Option.getD_some]
  rcases htarget with ⟨hside, hle⟩ | ⟨hside, hle⟩ <;> simp [hside, hle]

/-- C8, witness (Scenario C): a yes trade entered at 0.40 with multiplier
2.0 is closed with reason ProfitTarget at current price 0.44. -/
theorem C8_witness :
    check_position ⟨"yes", 2/5, 10⟩ (some ⟨"active", some (11/25), none⟩) {}
      none = some (some (11/25), ExitReason.profit_target) :=
  C8_theorem ⟨"yes", 2/5, 10⟩ ⟨"active", some (11/25), none⟩ {} none (11/25)
    (by decide) (by norm_num [pyOr, pyTruthy, bne_iff_ne]) (by norm_num)
    (Or.inl ⟨rfl, by norm_num⟩)

end KalshiTrading
